import Mathlib

/-!
Shallow embedding of the federation core of the wildebeest server:
the actor cache (`fetchActor`, `getAndCache`, `actorFromRow` from
backend/src/activitypub/actors/index.ts), the Like activity handler
(`handleLikeActivity` from backend/src/activitypub/activities/like.ts)
and the page-size handling of the followers and statuses endpoints
(functions/api/v1/accounts/[id]/followers.ts and statuses.ts).

Stateful code is embedded as explicit state passing over a `Db` record;
fallible code returns `Except String`.  Remote HTTP interaction is a
parameter `world : Url → HttpResponse`.  JavaScript `Promise.all([f, g])`
is modelled deterministically: the promises are started in array order
and each database operation completes atomically in that order; the
`Event` trace of `handleLikeActivity` records that order.
-/

namespace Wildebeest

/-- A parsed URL, the result of a successful `new URL(...)`.  Only the
parts the embedded code observes (host, full string form) are kept. -/
structure Url where
  host : String
  path : String
deriving DecidableEq, Repr

/-- `URL#toString` / string coercion of a URL. -/
def Url.str (u : Url) : String := "https://" ++ u.host ++ u.path

/-- The JSON document of a remote actor as delivered by `res.json()`. -/
structure ActorDoc where
  idField : Option Url
  typeField : Option String
  summary : Option String
  name : Option String
  preferredUsername : Option String
  inbox : Option String
  outbox : Option String
  following : Option String
  followers : Option String
deriving DecidableEq, Repr

/-- An HTTP response for an actor fetch: status plus parsed body.
`res.ok` is true exactly when the status is in [200, 300). -/
structure HttpResponse where
  status : Nat
  doc : ActorDoc
deriving DecidableEq, Repr

def HttpResponse.ok (r : HttpResponse) : Bool := 200 ≤ r.status && r.status < 300

/-- Modelled from the spec: `sanitizeContent` (objects module, not part of
the provided sources) strips/escapes unsafe markup in a content string;
on plain text without markup it is the identity, which is how it is
modelled here. -/
def sanitizeContent (s : String) : String := s

/-- Modelled from the spec: `getTextContent` (objects module, not part of
the provided sources) extracts the plain text of a possibly-marked-up
string; on plain text it is the identity, which is how it is modelled
here. -/
def getTextContent (s : String) : String := s

/-- JavaScript `s.substring(0, n)`: the first `n` characters of `s`. -/
def strTake (s : String) (n : Nat) : String := String.mk (s.data.take n)

/-- The common shape of the three sanitize-and-clamp blocks of
`fetchActor` (actors/index.ts:68-85): when the field is present and
non-empty (JavaScript truthiness), sanitize it and truncate the result
to `maxLen` characters when it is longer. -/
def sanitizeClamp (sanitize : String → String) (maxLen : Nat)
    (field : Option String) : Option String :=
  match field with
  | none => none
  | some s =>
    if s ≠ "" then
      let t := sanitize s
      some (if t.length > maxLen then strTake t maxLen else t)
    else some s

/-- The sanitized remote actor returned by `fetchActor`: `id` has been
parsed into a URL, display fields sanitized and clamped. -/
structure RemoteActor where
  id : Url
  typeField : Option String
  summary : Option String
  name : Option String
  preferredUsername : Option String
  inbox : Option String
  outbox : Option String
  following : Option String
  followers : Option String
deriving DecidableEq, Repr

/-- `fetchActor` (actors/index.ts:56-104): GET the document; a non-ok
status throws; `actor.id = new URL(actor.id)` throws when the id field
is absent; `summary`, `name`, `preferredUsername` are sanitized and
clamped to 500/30/30 characters when present and non-empty (JavaScript
truthiness skips the empty string). -/
def fetchActor (res : HttpResponse) : Except String RemoteActor :=
  if !res.ok then .error ("returned: " ++ toString res.status)
  else
    match res.doc.idField with
    | none => .error "Invalid URL"
    | some uid =>
      .ok { id := uid
            typeField := res.doc.typeField
            summary := sanitizeClamp sanitizeContent 500 res.doc.summary
            name := sanitizeClamp getTextContent 30 res.doc.name
            preferredUsername := sanitizeClamp getTextContent 30 res.doc.preferredUsername
            inbox := res.doc.inbox
            outbox := res.doc.outbox
            following := res.doc.following
            followers := res.doc.followers }

/-- The JSON `properties` column of an actor row (`PersonProperties`). -/
structure PersonProperties where
  name : Option String
  summary : Option String
  preferredUsername : Option String
  inbox : Option String
  outbox : Option String
  following : Option String
  followers : Option String
deriving DecidableEq, Repr

/-- A row of the `actors` table. -/
structure ActorRow where
  id : String
  typeField : String
  properties : PersonProperties
  mastodonId : Option String
  isAdmin : Bool
  pubkey : Option String
  cdate : String
deriving DecidableEq, Repr

/-- A row of the `objects` table, as observed by the Like handler: the
canonical id and the provenance column (`original_actor_id`, read through
`originalActorIdSymbol`; the empty string is falsy in JavaScript). -/
structure ObjRow where
  id : String
  originalActorId : Option String
deriving DecidableEq, Repr

/-- A persisted notification row. -/
structure Notification where
  id : Nat
  kind : String
  recipient : String
  origin : String
  objectId : String
deriving DecidableEq, Repr

/-- The database state: the tables the embedded code touches. -/
structure Db where
  actors : List ActorRow
  objects : List ObjRow
  peers : List String
  likes : List (String × String)
  notifications : List Notification
deriving DecidableEq, Repr

/-- The public `Actor` value built by `actorFromRow`. -/
structure Actor where
  id : String
  typeField : String
  name : Option String
  summary : Option String
  preferredUsername : Option String
  inbox : String
  outbox : String
  following : String
  followers : String
  isAdmin : Bool
  mastodonId : Option String
deriving DecidableEq, Repr

/-- `actorFromRow` (actors/index.ts:314-400): converts a stored row to an
`Actor`; `name` falls back to `preferredUsername`; the endpoint fields
missing from `properties` are defaulted to the canonical id with
`/inbox`, `/outbox`, `/following`, `/followers` appended. -/
def actorFromRow (row : ActorRow) : Actor :=
  let p := row.properties
  { id := row.id
    typeField := row.typeField
    name := p.name.orElse (fun _ => p.preferredUsername)
    summary := p.summary
    preferredUsername := p.preferredUsername
    inbox := p.inbox.getD (row.id ++ "/inbox")
    outbox := p.outbox.getD (row.id ++ "/outbox")
    following := p.following.getD (row.id ++ "/following")
    followers := p.followers.getD (row.id ++ "/followers")
    isAdmin := row.isAdmin
    mastodonId := row.mastodonId }

/-- Modelled from the spec: the Identifier Allocator (`generateMastodonId`,
utils/id.ts, not part of the provided sources) produces a fresh local
identifier for a table; its value is opaque to the code embedded here, so
it is modelled as a function of the current table size. -/
def generateMastodonId (db : Db) : String :=
  "mid-" ++ toString db.actors.length

/-- Find the row of the `actors` table with the given canonical id
(`SELECT * FROM actors WHERE id=?`). -/
def findActorRow (db : Db) (id : String) : Option ActorRow :=
  db.actors.find? (fun r => r.id = id)

/-- `setMastodonId` (actors/index.ts:290-300): allocate an id and
`UPDATE actors SET mastodon_id = ? WHERE id = ?`. -/
def setMastodonId (db : Db) (actorId : String) (mid : String) : Db :=
  { db with
    actors := db.actors.map (fun r =>
      if r.id = actorId then { r with mastodonId := some mid } else r) }

/-- `getActorById` (actors/index.ts:302-312): look the row up by id;
when found, lazily backfill a missing `mastodon_id` before converting
with `actorFromRow`.  The backfill writes to the database, so the
(possibly updated) state is returned alongside the result. -/
def getActorById (db : Db) (id : String) : Option Actor × Db :=
  match findActorRow db id with
  | none => (none, db)
  | some row =>
    match row.mastodonId with
    | some _ => (some (actorFromRow row), db)
    | none =>
      let mid := generateMastodonId db
      (some (actorFromRow { row with mastodonId := some mid }),
       setMastodonId db row.id mid)

/-- Modelled from the spec: `addPeer` (activitypub/peers.ts, not part of
the provided sources) records the actor's origin host as a known peer
with an idempotent upsert. -/
def addPeer (db : Db) (host : String) : Db :=
  if db.peers.contains host then db
  else { db with peers := db.peers ++ [host] }

/-- The plain `INSERT INTO actors (id, type, cdate, properties,
mastodon_id) VALUES (?, ?, ?, ?, ?)` issued by `getAndCache`
(actors/index.ts:125-136).  The statement has no conflict clause;
the schema is not part of the provided sources, so per the spec the
storage enforces a uniqueness constraint on the canonical identifier:
inserting a second row with an existing id fails with a constraint
error rather than being ignored. -/
def insertActorRow (db : Db) (row : ActorRow) : Except String Db :=
  if db.actors.any (fun r => r.id = row.id) then
    .error "UNIQUE constraint failed: actors.id"
  else .ok { db with actors := db.actors ++ [row] }

/-- The properties object stored for a freshly fetched remote actor
(`JSON.stringify(properties)` where `properties = actor`). -/
def propsOfRemote (ra : RemoteActor) : PersonProperties :=
  { name := ra.name
    summary := ra.summary
    preferredUsername := ra.preferredUsername
    inbox := ra.inbox
    outbox := ra.outbox
    following := ra.following
    followers := ra.followers }

/-- The cache-miss continuation of `getAndCache`
(actors/index.ts:115-149): fetch the remote document, reject it when the
type or id field is missing (JavaScript `!actor.type` is also true for
the empty string), insert the row with a plain INSERT, register the
origin host as a peer and return the converted row. -/
def cacheRemoteActor (world : Url → HttpResponse) (url : Url) (db : Db) :
    Except String Actor × Db :=
  match fetchActor (world url) with
  | .error e => (.error e, db)
  | .ok ra =>
    if ra.typeField.getD "" = "" then (.error "missing fields on Actor", db)
    else
      let mid := generateMastodonId db
      let row : ActorRow :=
        { id := ra.id.str
          typeField := ra.typeField.getD ""
          properties := propsOfRemote ra
          mastodonId := some mid
          isAdmin := false
          pubkey := none
          cdate := "now" }
      match insertActorRow db row with
      | .error e => (.error e, db)
      | .ok db1 =>
        let db2 := addPeer db1 ra.id.host
        (.ok (actorFromRow row), db2)

/-- `getAndCache` (actors/index.ts:107-150): return the locally stored
actor when one exists, otherwise fetch, insert and return it. -/
def getAndCache (world : Url → HttpResponse) (url : Url) (db : Db) :
    Except String Actor × Db :=
  match getActorById db url.str with
  | (some actor, db1) => (.ok actor, db1)
  | (none, db1) => cacheRemoteActor world url db1

/-- Modelled from the spec: the Object Cache lookup `getObjectById`
(activitypub/objects, not part of the provided sources) returns the
locally cached object with the given canonical id, if any. -/
def getObjectById (db : Db) (id : String) : Option ObjRow :=
  db.objects.find? (fun o => o.id = id)

/-- Modelled from the spec: the Notification Emitter `createNotification`
(mastodon/notification.ts, not part of the provided sources) persists the
notification row and returns its identifier; each call persists a row. -/
def createNotification (db : Db) (kind : String) (target : Actor)
    (fromActor : Actor) (obj : ObjRow) : Nat × Db :=
  let nid := db.notifications.length
  (nid,
   { db with
     notifications := db.notifications ++
       [{ id := nid, kind := kind, recipient := target.id,
          origin := fromActor.id, objectId := obj.id }] })

/-- Modelled from the spec: `insertLike` (mastodon/like.ts, not part of
the provided sources) stores the Like edge for counting; per the spec the
insertion is a no-op when the (subject, object) edge already exists. -/
def insertLike (db : Db) (actor : Actor) (obj : ObjRow) : Db :=
  if (actor.id, obj.id) ∈ db.likes then db
  else { db with likes := db.likes ++ [(actor.id, obj.id)] }

/-- Modelled from the spec: `sendLikeNotification`
(mastodon/notification.ts, not part of the provided sources) issues a
best-effort push delivery request for the persisted notification; a
delivery failure (`pushOk = false`) is logged by its own error handling
and swallowed, and the database is never modified. -/
def sendLikeNotification (pushOk : Bool) (db : Db) (notifId : Nat) : Db :=
  let _ := pushOk
  let _ := notifId
  db

/-- Observable events of one run of the Like handler, in the order the
deterministic model executes them. -/
inductive Event where
  | warned (msg : String)
  | notificationInserted (kind recipient origin objectId : String)
  | likeInserted (actorId objectId : String)
  | pushRequested (notifId : Nat) (pushOk : Bool)
deriving DecidableEq, Repr

/-- A Like activity as seen by the handler, with `getAPId` already
applied to the `actor` and `object` fields. -/
structure LikeActivity where
  actor : Url
  object : Url
deriving DecidableEq, Repr

/-- Result of `handleLikeActivity`: outcome, final state, event trace. -/
structure HandleResult where
  res : Except String Unit
  db : Db
  events : List Event
deriving Repr

/-- `handleLikeActivity` (activities/like.ts:22-47): resolve the target
object locally and require provenance, else warn and return; resolve the
delivering actor via `getAndCache` (its errors propagate); look up the
object's original author, else warn and return; then run
`Promise.all([createNotification(...), insertLike(...)])` — started and,
in this deterministic model, completed in array order — and finally await
`sendLikeNotification`. -/
def handleLikeActivity (world : Url → HttpResponse) (pushOk : Bool)
    (activity : LikeActivity) (db : Db) : HandleResult :=
  let objectId := activity.object.str
  match getObjectById db objectId with
  | none => ⟨.ok (), db, [.warned "unknown object"]⟩
  | some obj =>
    if obj.originalActorId.getD "" = "" then
      ⟨.ok (), db, [.warned "unknown object"]⟩
    else
      match getAndCache world activity.actor db with
      | (.error e, db1) => ⟨.error e, db1, []⟩
      | (.ok fromActor, db1) =>
        match getActorById db1 (obj.originalActorId.getD "") with
        | (none, db2) => ⟨.ok (), db2, [.warned "object actor not found"]⟩
        | (some targetActor, db2) =>
          let nr := createNotification db2 "favourite" targetActor fromActor obj
          let db4 := insertLike nr.2 fromActor obj
          let db5 := sendLikeNotification pushOk db4 nr.1
          ⟨.ok (), db5,
           [.notificationInserted "favourite" targetActor.id fromActor.id obj.id,
            .likeInserted fromActor.id obj.id,
            .pushRequested nr.1 pushOk]⟩

/-- The followers endpoint parameter schema
(functions/api/v1/accounts/[id]/followers.ts:16-18 and 33-43):
`limit` must be an integer between 1 and 80, defaulting to 40; a value
outside the range fails validation, and `onRequestGet` then throws. -/
def followersParseLimit (limit : Option Int) : Except String Int :=
  match limit with
  | none => .ok 40
  | some n => if 1 ≤ n && n ≤ 80 then .ok n else .error "failed to read params"

/-- The statuses endpoint limit computation
(functions/api/v1/accounts/[id]/statuses.ts:32,39):
`Math.abs(Number.parseInt(limit ?? '0')) || DEFAULT_LIMIT` with
`DEFAULT_LIMIT = 20`; `none` stands for a missing or non-numeric
parameter (`parseInt` yields NaN, which is falsy).  No maximum applies. -/
def statusesLimit (limit : Option Int) : Nat :=
  match limit with
  | none => 20
  | some v => if v.natAbs = 0 then 20 else v.natAbs

/-- The `LIMIT ?3 OFFSET ?4` clause of the statuses query
(statuses.ts:166): the stored rows after the offset, up to `limit`. -/
def applyLimitOffset (rows : List Nat) (limit offset : Nat) : List Nat :=
  (rows.drop offset).take limit

/-- The freshly persisted notification row created by `createNotification`
when invoked on state `db` for target `ta`, origin `fa` and object `obj`. -/
def mkNotif (db : Db) (ta fa : Actor) (obj : ObjRow) : Notification :=
  { id := db.notifications.length
    kind := "favourite"
    recipient := ta.id
    origin := fa.id
    objectId := obj.id }

/-! ## Concrete fixtures -/

/-- A document with every field absent. -/
def emptyDoc : ActorDoc :=
  { idField := none, typeField := none, summary := none, name := none
    preferredUsername := none, inbox := none, outbox := none
    following := none, followers := none }

/-- A 600-character summary, for exercising the clamp. -/
def sum600 : String := String.mk (List.replicate 600 'a')

/-- A 40-character username, for exercising the clamp. -/
def user40 : String := String.mk (List.replicate 40 'u')

/-- A response carrying an over-long summary, name and username. -/
def resClamp : HttpResponse :=
  { status := 200
    doc := { idField := some ⟨"remote.example", "/users/alice"⟩
             typeField := some "Person"
             summary := some sum600
             name := some (String.mk (List.replicate 31 'n'))
             preferredUsername := some user40
             inbox := none, outbox := none, following := none, followers := none } }

/-- The actor `fetchActor` produces from `resClamp`. -/
def raClamp : RemoteActor :=
  { id := ⟨"remote.example", "/users/alice"⟩
    typeField := some "Person"
    summary := some (strTake sum600 500)
    name := some (strTake (String.mk (List.replicate 31 'n')) 30)
    preferredUsername := some (strTake user40 30)
    inbox := none, outbox := none, following := none, followers := none }

/-- The empty database. -/
def emptyDb : Db :=
  { actors := [], objects := [], peers := [], likes := [], notifications := [] }

/-- A remote world in which every fetch returns 404. -/
def world404 : Url → HttpResponse := fun _ => { status := 404, doc := emptyDoc }

/-- The canonical identifier used in the double-resolution scenario. -/
def raceUrl : Url := ⟨"remote.example", "/users/alice"⟩

/-- A remote world serving a well-formed actor document for every URL. -/
def raceWorld : Url → HttpResponse := fun u =>
  { status := 200
    doc := { emptyDoc with idField := some u, typeField := some "Person" } }

/-- The database state after the first of two racing resolutions of
`raceUrl` has fetched and inserted its row. -/
def raceDb1 : Db := (cacheRemoteActor raceWorld raceUrl emptyDb).2

/-- Properties with every field absent. -/
def emptyProps : PersonProperties :=
  { name := none, summary := none, preferredUsername := none
    inbox := none, outbox := none, following := none, followers := none }

/-- The canonical identifier of the local author of the liked note. -/
def authorId : String := "https://local.example/ap/users/sven"

/-- The row of the local author of the liked note. -/
def authorRow : ActorRow :=
  { id := authorId, typeField := "Person"
    properties := { emptyProps with preferredUsername := some "sven" }
    mastodonId := some "mid-a", isAdmin := false, pubkey := none
    cdate := "2023-01-01" }

/-- The canonical identifier of the remote actor delivering the Like. -/
def likerUrl : Url := ⟨"remote.example", "/users/bob"⟩

/-- The canonical identifier string of the delivering actor. -/
def likerId : String := likerUrl.str

/-- The cached row of the remote actor delivering the Like. -/
def likerRow : ActorRow :=
  { id := likerId, typeField := "Person"
    properties := { emptyProps with preferredUsername := some "bob" }
    mastodonId := some "mid-b", isAdmin := false, pubkey := none
    cdate := "2023-01-02" }

/-- The canonical identifier of the liked note. -/
def noteId : String := "https://local.example/ap/o/1"

/-- The cached row of the liked note, with provenance pointing at the
local author. -/
def noteRow : ObjRow := { id := noteId, originalActorId := some authorId }

/-- The database in the Like scenario: author and liker cached, note
cached with provenance, no edges and no notifications yet. -/
def likeDb : Db :=
  { actors := [authorRow, likerRow], objects := [noteRow]
    peers := [], likes := [], notifications := [] }

/-- The Like activity delivered by the remote actor on the note. -/
def likeAct : LikeActivity :=
  { actor := likerUrl, object := ⟨"local.example", "/ap/o/1"⟩ }

/-- The state after the first delivery of `likeAct`. -/
def likeDb1 : Db := (handleLikeActivity world404 true likeAct likeDb).db

/-- The state after the second (duplicate) delivery of `likeAct`. -/
def likeDb2 : Db := (handleLikeActivity world404 true likeAct likeDb1).db

/-! ## Helper lemmas -/

theorem strTake_length_le (s : String) (n : Nat) : (strTake s n).length ≤ n := by
  show (s.data.take n).length ≤ n
  exact List.length_take_le n s.data

theorem strTake_length (s : String) (n : Nat) :
    (strTake s n).length = min n s.length := by
  show (s.data.take n).length = min n s.data.length
  exact List.length_take n s.data

theorem length_mk_replicate (n : Nat) (c : Char) :
    (String.mk (List.replicate n c)).length = n := by
  show (List.replicate n c).length = n
  exact List.length_replicate n c

theorem sanitizeClamp_le (f : String → String) (n : Nat) (o : Option String)
    (t : String) (h : sanitizeClamp f n o = some t) : t.length ≤ n := by
  unfold sanitizeClamp at h
  cases o with
  | none => exact absurd h (by simp)
  | some s =>
    by_cases hs : s = ""
    · simp [hs] at h
      subst h
      exact Nat.zero_le n
    · simp only [hs, ne_eq, not_false_eq_true, if_true, Option.some.injEq] at h
      subst h
      by_cases hl : (f s).length > n
      · rw [if_pos hl]
        exact strTake_length_le (f s) n
      · rw [if_neg hl]
        exact Nat.le_of_not_lt hl

theorem sanitizeClamp_of_lt (f : String → String) (n : Nat) (s : String)
    (hs : s ≠ "") (h : n < (f s).length) :
    sanitizeClamp f n (some s) = some (strTake (f s) n) := by
  simp [sanitizeClamp, hs, h]

theorem length_pos_ne_empty (s : String) (h : 0 < s.length) : s ≠ "" := by
  intro he
  subst he
  simp at h

theorem fetchActor_ok_inv (res : HttpResponse) (ra : RemoteActor)
    (h : fetchActor res = .ok ra) :
    res.ok = true ∧ res.doc.idField = some ra.id ∧
    ra.typeField = res.doc.typeField := by
  unfold fetchActor at h
  by_cases hok : res.ok
  · refine ⟨hok, ?_⟩
    simp only [hok, Bool.not_true, Bool.false_eq_true, if_false] at h
    cases hid : res.doc.idField with
    | none => rw [hid] at h; exact absurd h (by simp)
    | some uid =>
      rw [hid] at h
      injection h with h
      subst h
      exact ⟨rfl, rfl⟩
  · simp [hok] at h

theorem findActorRow_id (db : Db) (id : String) (r : ActorRow)
    (h : findActorRow db id = some r) : r.id = id := by
  unfold findActorRow at h
  have := List.find?_some h
  simpa using this

theorem getActorById_id (db : Db) (id : String) (a : Actor) (db' : Db)
    (h : getActorById db id = (some a, db')) : a.id = id := by
  unfold getActorById at h
  cases hf : findActorRow db id with
  | none => rw [hf] at h; exact absurd h (by simp)
  | some row =>
    have hrow : row.id = id := findActorRow_id db id row hf
    simp only [hf] at h
    cases hm : row.mastodonId with
    | some m =>
      simp only [hm, Prod.mk.injEq, Option.some.injEq] at h
      rw [← h.1, ← hrow]
      rfl
    | none =>
      simp only [hm, Prod.mk.injEq, Option.some.injEq] at h
      rw [← h.1, ← hrow]
      rfl

theorem getActorById_hit (db : Db) (id : String) (row : ActorRow)
    (h : findActorRow db id = some row) (hm : row.mastodonId.isSome) :
    getActorById db id = (some (actorFromRow row), db) := by
  unfold getActorById
  rw [h]
  cases hmm : row.mastodonId with
  | none => rw [hmm] at hm; exact absurd hm (by simp)
  | some m => simp only [hmm]

theorem getAndCache_hit (world : Url → HttpResponse) (url : Url) (db : Db)
    (row : ActorRow) (h : findActorRow db url.str = some row)
    (hm : row.mastodonId.isSome) :
    getAndCache world url db = (.ok (actorFromRow row), db) := by
  unfold getAndCache
  rw [getActorById_hit db url.str row h hm]

theorem getAndCache_miss (world : Url → HttpResponse) (url : Url) (db : Db)
    (h : findActorRow db url.str = none) :
    getAndCache world url db = cacheRemoteActor world url db := by
  unfold getAndCache getActorById
  rw [h]

theorem cacheRemoteActor_error (world : Url → HttpResponse) (url : Url)
    (db : Db)
    (h : ∀ ra, fetchActor (world url) = .ok ra → ra.typeField.getD "" = "") :
    ∃ e, cacheRemoteActor world url db = (.error e, db) := by
  cases hfa : fetchActor (world url) with
  | error e =>
    refine ⟨e, ?_⟩
    unfold cacheRemoteActor
    rw [hfa]
  | ok ra =>
    refine ⟨"missing fields on Actor", ?_⟩
    unfold cacheRemoteActor
    rw [hfa]
    simp only [h ra hfa, if_true]

theorem insertLike_fields (db : Db) (a : Actor) (o : ObjRow) :
    (insertLike db a o).actors = db.actors ∧
    (insertLike db a o).objects = db.objects ∧
    (insertLike db a o).notifications = db.notifications := by
  unfold insertLike
  split <;> exact ⟨rfl, rfl, rfl⟩

theorem insertLike_mem (db : Db) (a : Actor) (o : ObjRow)
    (h : (a.id, o.id) ∈ db.likes) : insertLike db a o = db := by
  unfold insertLike
  rw [if_pos h]

theorem insertLike_new (db : Db) (a : Actor) (o : ObjRow)
    (h : (a.id, o.id) ∉ db.likes) :
    insertLike db a o = { db with likes := db.likes ++ [(a.id, o.id)] } := by
  unfold insertLike
  rw [if_neg h]

/-- Characterization of a fully applied Like run: when the object is
cached with non-empty provenance `tid`, the delivering actor resolves to
`fa` (state `db1`) and the original author resolves to `ta` (state
`db2`), the handler persists the notification, inserts the Like edge and
requests the push, in that deterministic order. -/
theorem handleLike_applied (world : Url → HttpResponse) (pushOk : Bool)
    (activity : LikeActivity) (db : Db) (obj : ObjRow) (tid : String)
    (fa : Actor) (db1 : Db) (ta : Actor) (db2 : Db)
    (ho : getObjectById db activity.object.str = some obj)
    (hp : obj.originalActorId = some tid) (hne : tid ≠ "")
    (hfa : getAndCache world activity.actor db = (.ok fa, db1))
    (hta : getActorById db1 tid = (some ta, db2)) :
    handleLikeActivity world pushOk activity db =
      ⟨.ok (),
       insertLike { db2 with
         notifications := db2.notifications ++ [mkNotif db2 ta fa obj] } fa obj,
       [.notificationInserted "favourite" ta.id fa.id obj.id,
        .likeInserted fa.id obj.id,
        .pushRequested db2.notifications.length pushOk]⟩ := by
  unfold handleLikeActivity
  simp only [ho, hp, Option.getD_some, hne, ite_false, if_neg, hfa, hta]
  rfl

/-! ## C8: sanitization clamps in `fetchActor` -/

/-- C8: every remote actor document accepted by `fetchActor` has its
sanitized fields clamped: a summary longer than 500 characters is
truncated to its first 500 characters, and a name or preferredUsername
longer than 30 characters is truncated to its first 30; in all cases the
resulting fields never exceed 500/30/30 characters.  (`sanitizeContent`
and `getTextContent` are the identity on plain text, so the bounds are
stated on the raw field.) -/
theorem fetchActor_clamps (res : HttpResponse) (ra : RemoteActor)
    (h : fetchActor res = .ok ra) :
    (∀ s, ra.summary = some s → s.length ≤ 500) ∧
    (∀ s, ra.name = some s → s.length ≤ 30) ∧
    (∀ s, ra.preferredUsername = some s → s.length ≤ 30) ∧
    (∀ s, res.doc.summary = some s → 500 < s.length →
      ra.summary = some (strTake s 500)) ∧
    (∀ s, res.doc.name = some s → 30 < s.length →
      ra.name = some (strTake s 30)) ∧
    (∀ s, res.doc.preferredUsername = some s → 30 < s.length →
      ra.preferredUsername = some (strTake s 30)) := by
  unfold fetchActor at h
  by_cases hok : res.ok
  · simp only [hok, Bool.not_true, Bool.false_eq_true, if_false] at h
    cases hid : res.doc.idField with
    | none => rw [hid] at h; exact absurd h (by simp)
    | some uid =>
      rw [hid] at h
      injection h with h
      subst h
      refine ⟨fun s hs => sanitizeClamp_le _ _ _ _ hs,
              fun s hs => sanitizeClamp_le _ _ _ _ hs,
              fun s hs => sanitizeClamp_le _ _ _ _ hs, ?_, ?_, ?_⟩
      · intro s hs hlen
        show sanitizeClamp sanitizeContent 500 res.doc.summary = _
        rw [hs]
        exact sanitizeClamp_of_lt _ _ _
          (length_pos_ne_empty s (Nat.lt_of_lt_of_le (by omega) (Nat.le_of_lt hlen))) hlen
      · intro s hs hlen
        show sanitizeClamp getTextContent 30 res.doc.name = _
        rw [hs]
        exact sanitizeClamp_of_lt _ _ _
          (length_pos_ne_empty s (Nat.lt_of_lt_of_le (by omega) (Nat.le_of_lt hlen))) hlen
      · intro s hs hlen
        show sanitizeClamp getTextContent 30 res.doc.preferredUsername = _
        rw [hs]
        exact sanitizeClamp_of_lt _ _ _
          (length_pos_ne_empty s (Nat.lt_of_lt_of_le (by omega) (Nat.le_of_lt hlen))) hlen
  · exact absurd h (by simp [hok])

set_option maxRecDepth 8192 in
/-- Witness for C8: on a concrete document with a 600-character summary,
a 31-character name and a 40-character username, `fetchActor` succeeds
and the clamp theorem applies; the resulting summary has exactly 500
characters and the username exactly 30. -/
theorem fetchActor_clamps_witness :
    fetchActor resClamp = .ok raClamp ∧
    ((∀ s, raClamp.summary = some s → s.length ≤ 500) ∧
     (∀ s, raClamp.name = some s → s.length ≤ 30) ∧
     (∀ s, raClamp.preferredUsername = some s → s.length ≤ 30) ∧
     (∀ s, resClamp.doc.summary = some s → 500 < s.length →
       raClamp.summary = some (strTake s 500)) ∧
     (∀ s, resClamp.doc.name = some s → 30 < s.length →
       raClamp.name = some (strTake s 30)) ∧
     (∀ s, resClamp.doc.preferredUsername = some s → 30 < s.length →
       raClamp.preferredUsername = some (strTake s 30))) ∧
    raClamp.summary.map String.length = some 500 ∧
    raClamp.preferredUsername.map String.length = some 30 := by
  have h600 : sum600.length = 600 := length_mk_replicate 600 'a'
  have h40 : user40.length = 40 := length_mk_replicate 40 'u'
  have hfetch : fetchActor resClamp = .ok raClamp := rfl
  refine ⟨hfetch, fetchActor_clamps resClamp raClamp hfetch, ?_, ?_⟩
  · simp [raClamp, strTake_length, h600]
  · simp [raClamp, strTake_length, h40]

/-! ## C10: `actorFromRow` defaults the protocol endpoints -/

/-- C10: every `Actor` built by `actorFromRow` has all four protocol
endpoints defined: each endpoint equals the stored property when
present, and otherwise defaults deterministically to the canonical
identifier with `/inbox`, `/outbox`, `/following` or `/followers`
appended. -/
theorem actorFromRow_defaults_endpoints (row : ActorRow) :
    (actorFromRow row).inbox = (row.properties.inbox).getD (row.id ++ "/inbox") ∧
    (actorFromRow row).outbox = (row.properties.outbox).getD (row.id ++ "/outbox") ∧
    (actorFromRow row).following = (row.properties.following).getD (row.id ++ "/following") ∧
    (actorFromRow row).followers = (row.properties.followers).getD (row.id ++ "/followers") :=
  ⟨rfl, rfl, rfl, rfl⟩

/-! ## C9: page size handling of the collection endpoints -/

/-- C9 counterexample: the caller-supplied page size is not clamped to
80.  The followers endpoint rejects a limit of 100 with a validation
error instead of clamping it, and the statuses endpoint passes a limit
of 200 straight to the query, returning 100 items when 100 rows are
stored — more than 80. -/
theorem pageSize_not_clamped_counterexample :
    followersParseLimit (some 100) = .error "failed to read params" ∧
    statusesLimit (some 200) = 200 ∧
    (applyLimitOffset (List.replicate 100 0) (statusesLimit (some 200)) 0).length = 100 := by
  refine ⟨rfl, rfl, ?_⟩
  decide

/-- C9 amended: the followers endpoint validates the caller-supplied
limit as an integer between 1 and 80 (default 40) and rejects larger
values with an error rather than clamping them; the statuses endpoint
applies no maximum: it uses the absolute value of the parsed limit
(default 20) directly as the query bound, so a page holds at most that
caller-chosen number of items, which may exceed 80. -/
theorem pageSize_validation (n : Int) (p : Option Int) (rows : List Nat)
    (offset : Nat) :
    (1 ≤ n → n ≤ 80 → followersParseLimit (some n) = .ok n) ∧
    (80 < n → followersParseLimit (some n) = .error "failed to read params") ∧
    followersParseLimit none = .ok 40 ∧
    (applyLimitOffset rows (statusesLimit p) offset).length ≤ statusesLimit p := by
  refine ⟨?_, ?_, rfl, ?_⟩
  · intro h1 h2
    simp [followersParseLimit, h1, h2]
  · intro h
    simp [followersParseLimit, show ¬(n ≤ 80) by omega]
  · exact List.length_take_le _ _

/-- Witness for the amended C9 claim at concrete inputs: limit 40 is
accepted, limit 100 is rejected, the default is 40, and a statuses page
for limit 200 over 100 rows holds at most 200 items. -/
theorem pageSize_validation_witness :
    followersParseLimit (some 40) = .ok 40 ∧
    followersParseLimit (some 100) = .error "failed to read params" ∧
    followersParseLimit none = .ok 40 ∧
    (applyLimitOffset (List.replicate 100 0) (statusesLimit (some 200)) 0).length ≤
      statusesLimit (some 200) :=
  ⟨(pageSize_validation 40 (some 200) (List.replicate 100 0) 0).1 (by decide) (by decide),
   (pageSize_validation 100 (some 200) (List.replicate 100 0) 0).2.1 (by decide),
   (pageSize_validation 40 (some 200) (List.replicate 100 0) 0).2.2.1,
   (pageSize_validation 40 (some 200) (List.replicate 100 0) 0).2.2.2⟩

/-! ## C1: the insert of `getAndCache` is not idempotent -/

/-- C1: the claim that the insert of `getAndCache` is idempotent keyed on
the canonical identifier and that every call returns the single persisted
row fails at the schedule the spec's concurrency contract allows: two
resolutions of `raceUrl` both miss the empty cache; the first fetches and
inserts, leaving exactly one row, but the second caller's plain INSERT
then fails with a uniqueness error instead of converging on the persisted
row. -/
theorem getAndCache_race_second_insert_fails :
    getActorById emptyDb raceUrl.str = (none, emptyDb) ∧
    (∃ a, (cacheRemoteActor raceWorld raceUrl emptyDb).1 = .ok a) ∧
    raceDb1.actors.countP (fun r => r.id = raceUrl.str) = 1 ∧
    cacheRemoteActor raceWorld raceUrl raceDb1 =
      (.error "UNIQUE constraint failed: actors.id", raceDb1) := by
  refine ⟨rfl, ⟨_, rfl⟩, by decide, rfl⟩

/-! ## C5: resolution failure leaves the cache unchanged -/

/-- C5: when the actor is not cached and the remote fetch fails (non-2xx
status) or the fetched document lacks a declared identifier or type,
`getAndCache` returns a resolution error and the database is returned
unchanged: no actor row and no peer row is inserted. -/
theorem getAndCache_failure_no_mutation (world : Url → HttpResponse)
    (url : Url) (db : Db)
    (hmiss : findActorRow db url.str = none)
    (hbad : (world url).ok = false ∨ (world url).doc.idField = none ∨
      (world url).doc.typeField = none ∨ (world url).doc.typeField = some "") :
    ∃ e, getAndCache world url db = (.error e, db) := by
  rw [getAndCache_miss world url db hmiss]
  apply cacheRemoteActor_error
  intro ra hra
  obtain ⟨hok, hid, hty⟩ := fetchActor_ok_inv (world url) ra hra
  rcases hbad with hb | hb | hb | hb
  · rw [hb] at hok
    exact absurd hok (by simp)
  · rw [hb] at hid
    exact absurd hid (by simp)
  · rw [hty, hb]
    rfl
  · rw [hty, hb]
    rfl

/-- Witness for C5: on the empty database, resolving `raceUrl` against a
world that answers 404 yields an error and the unchanged database. -/
theorem getAndCache_failure_no_mutation_witness :
    findActorRow emptyDb raceUrl.str = none ∧
    (world404 raceUrl).ok = false ∧
    ∃ e, getAndCache world404 raceUrl emptyDb = (.error e, emptyDb) :=
  ⟨rfl, rfl,
   getAndCache_failure_no_mutation world404 raceUrl emptyDb rfl (Or.inl rfl)⟩

/-! ## C4: unresolvable objects are rejected without side effects -/

/-- C4: when the referenced object is not locally cached, or is cached
without provenance, `handleLikeActivity` returns normally, only logs a
warning, and leaves the database untouched: no Like edge and no
notification row is created. -/
theorem handleLike_unresolvable_object (world : Url → HttpResponse)
    (pushOk : Bool) (activity : LikeActivity) (db : Db)
    (h : getObjectById db activity.object.str = none ∨
      ∃ obj, getObjectById db activity.object.str = some obj ∧
        obj.originalActorId.getD "" = "") :
    handleLikeActivity world pushOk activity db =
      ⟨.ok (), db, [.warned "unknown object"]⟩ := by
  unfold handleLikeActivity
  rcases h with h | ⟨obj, h1, h2⟩
  · simp only [h]
  · simp only [h1, h2, if_true]

/-- Witness for C4: a Like on an object unknown to the empty database is
rejected with only a warning and no state change. -/
theorem handleLike_unresolvable_object_witness :
    getObjectById emptyDb likeAct.object.str = none ∧
    handleLikeActivity world404 true likeAct emptyDb =
      ⟨.ok (), emptyDb, [.warned "unknown object"]⟩ :=
  ⟨rfl, handleLike_unresolvable_object world404 true likeAct emptyDb (Or.inl rfl)⟩

/-! ## C3: notifications go to the original author -/

/-- C3: for an applied Like on an object whose stored provenance is
`tid`, the created notification is addressed to the actor stored as the
object's original author: its recipient equals `tid`, and when the
delivering actor differs from the original author (the relay case) the
recipient is never the delivering actor. -/
theorem handleLike_notifies_original_author (world : Url → HttpResponse)
    (pushOk : Bool) (activity : LikeActivity) (db : Db) (obj : ObjRow)
    (tid : String) (fa : Actor) (db1 : Db) (ta : Actor) (db2 : Db)
    (ho : getObjectById db activity.object.str = some obj)
    (hp : obj.originalActorId = some tid) (hne : tid ≠ "")
    (hfa : getAndCache world activity.actor db = (.ok fa, db1))
    (hta : getActorById db1 tid = (some ta, db2)) :
    (handleLikeActivity world pushOk activity db).res = .ok () ∧
    (handleLikeActivity world pushOk activity db).db.notifications =
      db2.notifications ++ [mkNotif db2 ta fa obj] ∧
    (mkNotif db2 ta fa obj).recipient = tid ∧
    (fa.id ≠ tid → (mkNotif db2 ta fa obj).recipient ≠ fa.id) := by
  have happ := handleLike_applied world pushOk activity db obj tid fa db1 ta db2
    ho hp hne hfa hta
  have hid : ta.id = tid := getActorById_id db1 tid ta db2 hta
  refine ⟨by rw [happ], ?_, hid, ?_⟩
  · rw [happ]
    exact (insertLike_fields _ fa obj).2.2
  · intro hneq
    show ta.id ≠ fa.id
    rw [hid]
    exact fun hh => hneq hh.symm

/-- Witness for C3: in the concrete relay-free fixture the Like delivered
by the remote actor on the local author's note produces a notification
addressed to the author, not to the deliverer. -/
theorem handleLike_notifies_original_author_witness :
    (handleLikeActivity world404 true likeAct likeDb).res = .ok () ∧
    (handleLikeActivity world404 true likeAct likeDb).db.notifications =
      likeDb.notifications ++
        [mkNotif likeDb (actorFromRow authorRow) (actorFromRow likerRow) noteRow] ∧
    (mkNotif likeDb (actorFromRow authorRow) (actorFromRow likerRow) noteRow).recipient =
      authorId ∧
    (mkNotif likeDb (actorFromRow authorRow) (actorFromRow likerRow) noteRow).recipient ≠
      (actorFromRow likerRow).id := by
  have h := handleLike_notifies_original_author world404 true likeAct likeDb
    noteRow authorId (actorFromRow likerRow) likeDb (actorFromRow authorRow) likeDb
    rfl rfl (by decide) rfl rfl
  exact ⟨h.1, h.2.1, h.2.2.1, h.2.2.2 (by decide)⟩

/-! ## C6: ordering of edge insertion and notification emission -/

/-- C6 is false as stated: the notification row is not created only after
the Like edge insertion has completed.  In the deterministic model of
`Promise.all` the first event of the concrete run is the notification
insertion, which precedes the Like edge insertion in the trace. -/
theorem likeTrace_counterexample :
    (handleLikeActivity world404 true likeAct likeDb).events =
      [.notificationInserted "favourite" authorId likerId noteId,
       .likeInserted likerId noteId,
       .pushRequested 0 true] ∧
    (handleLikeActivity world404 true likeAct likeDb).events.head? =
      some (.notificationInserted "favourite" authorId likerId noteId) := by
  refine ⟨by decide, by decide⟩

/-- C6 amended: within one Like's processing the notification insertion
and the edge insertion are started together by `Promise.all` — in the
deterministic model the notification insertion comes first, so edge
insertion does not happen-before notification emission — and the push
delivery request is issued only after both, as the last step of the
trace. -/
theorem handleLike_trace (world : Url → HttpResponse) (pushOk : Bool)
    (activity : LikeActivity) (db : Db) (obj : ObjRow) (tid : String)
    (fa : Actor) (db1 : Db) (ta : Actor) (db2 : Db)
    (ho : getObjectById db activity.object.str = some obj)
    (hp : obj.originalActorId = some tid) (hne : tid ≠ "")
    (hfa : getAndCache world activity.actor db = (.ok fa, db1))
    (hta : getActorById db1 tid = (some ta, db2)) :
    (handleLikeActivity world pushOk activity db).events =
      [.notificationInserted "favourite" ta.id fa.id obj.id,
       .likeInserted fa.id obj.id,
       .pushRequested db2.notifications.length pushOk] := by
  rw [handleLike_applied world pushOk activity db obj tid fa db1 ta db2
    ho hp hne hfa hta]

/-- Witness for the amended C6 claim on the concrete fixture. -/
theorem handleLike_trace_witness :
    (handleLikeActivity world404 true likeAct likeDb).events =
      [.notificationInserted "favourite" (actorFromRow authorRow).id
        (actorFromRow likerRow).id noteRow.id,
       .likeInserted (actorFromRow likerRow).id noteRow.id,
       .pushRequested likeDb.notifications.length true] :=
  handleLike_trace world404 true likeAct likeDb noteRow authorId
    (actorFromRow likerRow) likeDb (actorFromRow authorRow) likeDb
    rfl rfl (by decide) rfl rfl

/-! ## C7: push delivery failure is harmless -/

/-- C7: for an applied Like, a failure of the push delivery request does
not undo the persisted notification row and does not fail the call: with
a failing push the handler still returns normally, the final database
equals the one produced with a successful push, and the persisted
notification row is present. -/
theorem handleLike_push_failure_harmless (world : Url → HttpResponse)
    (activity : LikeActivity) (db : Db) (obj : ObjRow) (tid : String)
    (fa : Actor) (db1 : Db) (ta : Actor) (db2 : Db)
    (ho : getObjectById db activity.object.str = some obj)
    (hp : obj.originalActorId = some tid) (hne : tid ≠ "")
    (hfa : getAndCache world activity.actor db = (.ok fa, db1))
    (hta : getActorById db1 tid = (some ta, db2)) :
    (handleLikeActivity world false activity db).res = .ok () ∧
    (handleLikeActivity world false activity db).db =
      (handleLikeActivity world true activity db).db ∧
    mkNotif db2 ta fa obj ∈
      (handleLikeActivity world false activity db).db.notifications := by
  have hf := handleLike_applied world false activity db obj tid fa db1 ta db2
    ho hp hne hfa hta
  have ht := handleLike_applied world true activity db obj tid fa db1 ta db2
    ho hp hne hfa hta
  refine ⟨by rw [hf], by rw [hf, ht], ?_⟩
  rw [hf]
  show mkNotif db2 ta fa obj ∈ (insertLike _ fa obj).notifications
  rw [(insertLike_fields _ fa obj).2.2]
  exact List.mem_append_right _ (by simp)

/-- Witness for C7 on the concrete fixture, with the push failing. -/
theorem handleLike_push_failure_harmless_witness :
    (handleLikeActivity world404 false likeAct likeDb).res = .ok () ∧
    (handleLikeActivity world404 false likeAct likeDb).db =
      (handleLikeActivity world404 true likeAct likeDb).db ∧
    mkNotif likeDb (actorFromRow authorRow) (actorFromRow likerRow) noteRow ∈
      (handleLikeActivity world404 false likeAct likeDb).db.notifications :=
  handleLike_push_failure_harmless world404 likeAct likeDb noteRow authorId
    (actorFromRow likerRow) likeDb (actorFromRow authorRow) likeDb
    rfl rfl (by decide) rfl rfl

/-! ## C2: redelivery of the same Like -/

/-- C2 is false as stated: delivering the same Like activity twice leaves
exactly one Like edge (the modelled edge insertion is idempotent) but TWO
notification rows, because `handleLikeActivity` creates a notification
unconditionally on every delivery; the claim requires exactly one. -/
theorem likeRedelivery_counterexample :
    likeDb2.likes.count (likerId, noteId) = 1 ∧
    likeDb2.notifications.length = 2 ∧
    likeDb.notifications.length = 0 := by
  refine ⟨by decide, by decide, rfl⟩

/-- C2 amended: processing the same Like activity twice (same delivering
actor and same target object, both already cached and resolvable, no
prior edge) leaves exactly one Like edge for the (actor, object) pair —
the second delivery inserts no new edge — but each delivery inserts a
fresh notification row, so after two deliveries the object's author has
two notifications. -/
theorem handleLike_redelivery (world : Url → HttpResponse) (pushOk : Bool)
    (activity : LikeActivity) (db : Db) (obj : ObjRow) (tid : String)
    (arow trow : ActorRow)
    (ho : getObjectById db activity.object.str = some obj)
    (hp : obj.originalActorId = some tid) (hne : tid ≠ "")
    (ha : findActorRow db activity.actor.str = some arow)
    (ham : arow.mastodonId.isSome)
    (ht : findActorRow db tid = some trow) (htm : trow.mastodonId.isSome)
    (hl : ((actorFromRow arow).id, obj.id) ∉ db.likes) :
    (handleLikeActivity world pushOk activity
        (handleLikeActivity world pushOk activity db).db).db.likes =
      db.likes ++ [((actorFromRow arow).id, obj.id)] ∧
    (handleLikeActivity world pushOk activity
        (handleLikeActivity world pushOk activity db).db).db.notifications.length =
      db.notifications.length + 2 ∧
    (handleLikeActivity world pushOk activity
        (handleLikeActivity world pushOk activity db).db).db.likes.count
      ((actorFromRow arow).id, obj.id) = 1 := by
  have hfa := getAndCache_hit world activity.actor db arow ha ham
  have hta := getActorById_hit db tid trow ht htm
  have h1 := handleLike_applied world pushOk activity db obj tid
    (actorFromRow arow) db (actorFromRow trow) db ho hp hne hfa hta
  have hd1 : (handleLikeActivity world pushOk activity db).db =
      { db with
        notifications := db.notifications ++
          [mkNotif db (actorFromRow trow) (actorFromRow arow) obj]
        likes := db.likes ++ [((actorFromRow arow).id, obj.id)] } := by
    rw [h1]
    exact insertLike_new _ _ _ hl
  have ho2 : getObjectById (handleLikeActivity world pushOk activity db).db
      activity.object.str = some obj := by
    rw [hd1]
    exact ho
  have ha2 : findActorRow (handleLikeActivity world pushOk activity db).db
      activity.actor.str = some arow := by
    rw [hd1]
    exact ha
  have ht2 : findActorRow (handleLikeActivity world pushOk activity db).db
      tid = some trow := by
    rw [hd1]
    exact ht
  have hfa2 := getAndCache_hit world activity.actor
    (handleLikeActivity world pushOk activity db).db arow ha2 ham
  have hta2 := getActorById_hit (handleLikeActivity world pushOk activity db).db
    tid trow ht2 htm
  have h2 := handleLike_applied world pushOk activity
    (handleLikeActivity world pushOk activity db).db obj tid
    (actorFromRow arow) _ (actorFromRow trow) _ ho2 hp hne hfa2 hta2
  have hd2 : (handleLikeActivity world pushOk activity
      (handleLikeActivity world pushOk activity db).db).db =
      { (handleLikeActivity world pushOk activity db).db with
        notifications := (handleLikeActivity world pushOk activity db).db.notifications
          ++ [mkNotif (handleLikeActivity world pushOk activity db).db
                (actorFromRow trow) (actorFromRow arow) obj] } := by
    rw [h2]
    apply insertLike_mem
    rw [hd1]
    simp
  refine ⟨?_, ?_, ?_⟩
  · rw [hd2, hd1]
  · rw [hd2, hd1]
    simp
  · rw [hd2, hd1]
    have hz : List.count ((actorFromRow arow).id, obj.id) db.likes = 0 :=
      List.count_eq_zero.mpr hl
    simp [List.count_append, hz]

/-- Witness for the amended C2 claim: on the concrete fixture a duplicate
delivery leaves one Like edge and two notifications. -/
theorem handleLike_redelivery_witness :
    (handleLikeActivity world404 true likeAct
        (handleLikeActivity world404 true likeAct likeDb).db).db.likes =
      likeDb.likes ++ [((actorFromRow likerRow).id, noteRow.id)] ∧
    (handleLikeActivity world404 true likeAct
        (handleLikeActivity world404 true likeAct likeDb).db).db.notifications.length =
      likeDb.notifications.length + 2 ∧
    (handleLikeActivity world404 true likeAct
        (handleLikeActivity world404 true likeAct likeDb).db).db.likes.count
      ((actorFromRow likerRow).id, noteRow.id) = 1 :=
  handleLike_redelivery world404 true likeAct likeDb noteRow authorId
    likerRow authorRow rfl rfl (by decide) rfl rfl rfl rfl (by decide)

end Wildebeest
